import Mathlib

/-!
Shallow embedding of `src/mypowerwatch.py` (class `MyPowerWatch`), the
power-monitoring dashboard.  Machine floats are modelled as exact rationals
(`ℚ`); the telemetry adapters (psutil, WMI, nvidia-smi, Open Hardware
Monitor) are I/O and enter the model as explicit per-tick inputs.  Maps that
are written at detection time and never read afterwards (`temperatures`,
`fan_speeds`, CPU clock fields) are omitted.
-/

namespace MyPowerWatch

/-- CPU entry of `hardware_specs` as built by `_detect_cpu_info`. -/
structure CpuInfo where
  name : String
  cores : Nat
  threads : Nat
  base_tdp : ℚ
  max_tdp : ℚ
deriving DecidableEq

/-- GPU entry of `hardware_specs` as built by `_detect_gpu_info`.  The
fallback value (all detection paths failed) has `name = "Integrated GPU"`,
`load = 0`, `tdp = 15`; the code identifies an integrated GPU by exactly
this name. -/
structure GpuInfo where
  name : String
  load : ℚ
  memory_used : ℚ
  memory_total : ℚ
  tdp : ℚ
deriving DecidableEq

/-- The code's criterion for an integrated GPU: `_calculate_gpu_power`
branches on `gpu_info['name'] != 'Integrated GPU'`. -/
def GpuInfo.isIntegrated (g : GpuInfo) : Bool :=
  g.name = "Integrated GPU"

/-- One element of the `disks` list built by `_detect_disks_info`. -/
structure DiskInfo where
  device : String
  dtype : String
  size_gb : ℚ
  used_gb : ℚ
deriving DecidableEq

/-- Raw battery reading from `psutil.sensors_battery()` (percent and
plugged flag), before `_get_battery_info` decorates it. -/
structure RawBattery where
  percent : ℚ
  power_plugged : Bool
deriving DecidableEq

/-- Battery entry of `hardware_specs` as built by `_get_battery_info`. -/
structure BatteryInfo where
  percent : ℚ
  power_plugged : Bool
  power_consumption : ℚ
deriving DecidableEq

/-- The `hardware_specs` dictionary built once by `_detect_hardware` in
`__init__`. -/
structure HardwareSpecs where
  cpu : CpuInfo
  gpu : GpuInfo
  ram : ℚ
  disks : List DiskInfo
  display : ℚ
  motherboard : ℚ
  fans : ℚ
  peripherals : ℚ
  battery : Option BatteryInfo
deriving DecidableEq

/-- Embedding of `_estimate_battery_power`: on battery, assume a 50 W maximum scaled by
the charge percentage; when plugged in, 0. -/
def estimateBatteryPower (b : RawBattery) : ℚ :=
  if !b.power_plugged then (b.percent / 100) * 50 else 0

/-- Embedding of `_get_battery_info`: `None` when `psutil.sensors_battery()` reports no
battery, otherwise the percent, plugged flag and the startup battery power
estimate. -/
def getBatteryInfo : Option RawBattery → Option BatteryInfo
  | some b =>
      some { percent := b.percent, power_plugged := b.power_plugged,
             power_consumption := estimateBatteryPower b }
  | none => none

/-- One entry of `psutil.disk_partitions()` together with the outcome of
`psutil.disk_usage(part.mountpoint)`: `usage = some (total, used)` in bytes
when the call succeeds, `none` when it raises.  `optsSsd` records whether
the substring `ssd` occurs in `part.opts.lower()`. -/
structure DiskPartition where
  device : String
  optsSsd : Bool
  usage : Option (ℚ × ℚ)
deriving DecidableEq

/-- Embedding of `_detect_disks_info`: partitions whose usage query raises are skipped
(`except: continue`); the rest are converted to GB. -/
def detectDisksInfo : List DiskPartition → List DiskInfo
  | [] => []
  | p :: rest =>
      match p.usage with
      | some tu =>
          { device := p.device,
            dtype := if p.optsSsd then "SSD" else "HDD",
            size_gb := tu.1 / 1024 ^ 3,
            used_gb := tu.2 / 1024 ^ 3 } :: detectDisksInfo rest
      | none => detectDisksInfo rest

/-- Embedding of `_detect_hardware`: assembles `hardware_specs` once at startup, with the
fixed overhead constants display 20 W, motherboard 30 W, fans 10 W,
peripherals 15 W, and the battery info read exactly here. -/
def detectHardware (cpu : CpuInfo) (gpu : GpuInfo) (ramBytes : ℚ)
    (parts : List DiskPartition) (rawBattery : Option RawBattery) : HardwareSpecs :=
  { cpu := cpu, gpu := gpu, ram := ramBytes / 1024 ^ 3,
    disks := detectDisksInfo parts,
    display := 20, motherboard := 30, fans := 10, peripherals := 15,
    battery := getBatteryInfo rawBattery }

/-- Embedding of `_calculate_cpu_power`.  `realCpu` is the `'cpu'` entry of
`_get_real_power_data()` (a sensor wattage) when present; `cpuPercentNow` is
`psutil.cpu_percent()` and `cpuPercentInterval` is
`psutil.cpu_percent(interval=1)`.  Returns (watts, usage percent). -/
def calculateCpuPower (specs : HardwareSpecs) (realCpu : Option ℚ)
    (cpuPercentNow cpuPercentInterval : ℚ) : ℚ × ℚ :=
  match realCpu with
  | some w => (w, cpuPercentNow)
  | none =>
      let cpu_usage := cpuPercentInterval / 100
      let power := specs.cpu.base_tdp
        + (specs.cpu.max_tdp - specs.cpu.base_tdp) * cpu_usage
      let power := power * min 1 ((specs.cpu.cores : ℚ) / 8)
      (power, cpu_usage * 100)

/-- Embedding of `_calculate_gpu_power`.  `realGpu` is the `'gpu'` entry of
`_get_real_power_data()` when present.  Returns (watts, usage percent); the
usage percent always comes from the stored (last known) `gpu.load`. -/
def calculateGpuPower (specs : HardwareSpecs) (realGpu : Option ℚ) : ℚ × ℚ :=
  match realGpu with
  | some w => (w, specs.gpu.load * 100)
  | none =>
      if specs.gpu.name ≠ "Integrated GPU" then
        (specs.gpu.tdp * specs.gpu.load, specs.gpu.load * 100)
      else
        (10 + 5 * specs.gpu.load, specs.gpu.load * 100)

/-- Embedding of `_calculate_disk_power`: a loop accumulating per-disk power (SSD:
`2 + 1*frac`, HDD: `5 + 3*frac`) and the used fractions; the usage percent
is the average fraction, 0 when the disk list is empty. -/
def calculateDiskPower (disks : List DiskInfo) : ℚ × ℚ :=
  let acc := disks.foldl
    (fun pu d =>
      (pu.1 + (if d.dtype = "SSD" then 2 + 1 * (d.used_gb / d.size_gb)
               else 5 + 3 * (d.used_gb / d.size_gb)),
       pu.2 + d.used_gb / d.size_gb))
    (0, 0)
  let avg_usage := if disks.isEmpty then 0 else acc.2 / (disks.length : ℚ)
  (acc.1, avg_usage * 100)

/-- Embedding of `_calculate_ram_power`: `3 + 0.5 * ram_gb * usage_fraction` with the OS
memory percent as usage. -/
def calculateRamPower (specs : HardwareSpecs) (ramPercent : ℚ) : ℚ × ℚ :=
  let ram_usage := ramPercent / 100
  (3 + 0.5 * specs.ram * ram_usage, ram_usage * 100)

/-- Embedding of `_get_gpu_load_with_retry`: `reads i` is the value the `(i+1)`-th call
of `_get_gpu_load_win()` would return (that reader catches its own
exceptions and returns 0.0, so every attempt yields a value).  Up to the
given number of attempts are made from index `i`; the first positive
reading is returned, otherwise 0.0.  The `time.sleep(0.5)` between attempts
is an I/O effect with no bearing on the returned value. -/
def getGpuLoadWithRetry (reads : Nat → ℚ) : Nat → Nat → ℚ
  | _, 0 => 0
  | i, k + 1 => if reads i > 0 then reads i else getGpuLoadWithRetry reads (i + 1) k

/-- The constant `self.max_history_points = 60` set in `__init__`. -/
def max_history_points : Nat := 60

/-- Embedding of `_check_power_threshold`: number of `_show_windows_notification` calls
made for one tick's total power (the 200 W threshold). -/
def checkPowerThreshold (current_power : ℚ) : Nat :=
  if current_power > 200 then 1 else 0

/-- One `{'power': …, 'usage': …}` entry of the components dictionary. -/
structure ComponentPower where
  power : ℚ
  usage : ℚ
deriving DecidableEq

/-- The components dictionary built each tick by `update_power_consumption`,
in its fixed insertion order CPU, GPU, RAM, Disks, Motherboard, Fans,
Display, Peripherals. -/
structure Components where
  cpu : ComponentPower
  gpu : ComponentPower
  ram : ComponentPower
  disks : ComponentPower
  motherboard : ComponentPower
  fans : ComponentPower
  display : ComponentPower
  peripherals : ComponentPower
deriving DecidableEq

/-- The power values of the components dictionary, in insertion order
(`comp['power'] for comp in components.values()`). -/
def Components.powerList (c : Components) : List ℚ :=
  [c.cpu.power, c.gpu.power, c.ram.power, c.disks.power,
   c.motherboard.power, c.fans.power, c.display.power, c.peripherals.power]

/-- The mutable per-run attributes of the `MyPowerWatch` instance that the
tick path touches: `hardware_specs` (mutated only at `update_display`'s GPU
refresh), the clock samples, the cumulative energy, the run time and the
power history list. -/
structure AppState where
  hardware_specs : HardwareSpecs
  start_time : ℚ
  last_update : ℚ
  energy_consumption : ℚ
  run_time : ℚ
  power_history : List ℚ
deriving DecidableEq

/-- Telemetry consumed by one tick: the wall clock `time.time()`, the real
sensor wattages seen by the two `_get_real_power_data()` calls inside
`update_power_consumption` (`realCpu`, `realGpu`) and by the recomputation
inside `update_display`'s GPU refresh (`realGpu2`), the psutil CPU and RAM
percents, and the stream of `_get_gpu_load_win()` results available to this
tick (`gpuReads i` is the value of its `(i+1)`-th invocation). -/
structure TickInput where
  now : ℚ
  realCpu : Option ℚ
  realGpu : Option ℚ
  realGpu2 : Option ℚ
  cpuPercentNow : ℚ
  cpuPercentInterval : ℚ
  ramPercent : ℚ
  gpuReads : Nat → ℚ

/-- Everything one call of `update_power_consumption` produces: the new
attribute state, the returned total power and components dictionary, and
the number of notification calls issued by `_check_power_threshold`. -/
structure TickResult where
  state : AppState
  total_power : ℚ
  components : Components
  notify_count : Nat

/-- Embedding of `update_power_consumption`: elapsed time since the previous tick,
per-component powers, the on-battery total-power override, energy
integration, run time, the 60-entry history append/evict, and the threshold
check. -/
def updatePowerConsumption (st : AppState) (inp : TickInput) : TickResult :=
  let current_time := inp.now
  let time_elapsed := current_time - st.last_update
  let cp := calculateCpuPower st.hardware_specs inp.realCpu
    inp.cpuPercentNow inp.cpuPercentInterval
  let gp := calculateGpuPower st.hardware_specs inp.realGpu
  let dp := calculateDiskPower st.hardware_specs.disks
  let rp := calculateRamPower st.hardware_specs inp.ramPercent
  let components : Components :=
    { cpu := ⟨cp.1, cp.2⟩, gpu := ⟨gp.1, gp.2⟩,
      ram := ⟨rp.1, rp.2⟩, disks := ⟨dp.1, dp.2⟩,
      motherboard := ⟨st.hardware_specs.motherboard, 0⟩,
      fans := ⟨st.hardware_specs.fans, 0⟩,
      display := ⟨st.hardware_specs.display, 0⟩,
      peripherals := ⟨st.hardware_specs.peripherals, 0⟩ }
  let total_power :=
    match st.hardware_specs.battery with
    | some b => if !b.power_plugged then b.power_consumption
                else components.powerList.sum
    | none => components.powerList.sum
  let energy := st.energy_consumption + total_power * (time_elapsed / 3600)
  let run_time := current_time - st.start_time
  let h1 := st.power_history ++ [total_power]
  let h2 := if h1.length > max_history_points then h1.tail else h1
  { state := { st with
               last_update := current_time
               energy_consumption := energy
               run_time := run_time
               power_history := h2 }
    total_power := total_power
    components := components
    notify_count := checkPowerThreshold total_power }

/-- Embedding of `update_display` (UI rendering aside): run `update_power_consumption`;
if the tick's GPU usage is 0, overwrite `hardware_specs['gpu']['load']`
with one fresh `_get_gpu_load_win()` reading and recompute the GPU usage
via `_calculate_gpu_power`. -/
def updateDisplay (st : AppState) (inp : TickInput) : TickResult :=
  let r := updatePowerConsumption st inp
  if r.components.gpu.usage = 0 then
    let specs1 := { r.state.hardware_specs with
      gpu := { r.state.hardware_specs.gpu with load := inp.gpuReads 0 } }
    let gp := calculateGpuPower specs1 inp.realGpu2
    { r with
      state := { r.state with hardware_specs := specs1 }
      components := { r.components with
        gpu := { r.components.gpu with usage := gp.2 } } }
  else r

/-- The state after a sequence of ticks (one `update_display` per
`set_interval` firing). -/
def runTicks (st : AppState) : List TickInput → AppState
  | [] => st
  | inp :: rest => runTicks (updateDisplay st inp).state rest

/-- The total power published by each tick of a run, in order. -/
def runTotals (st : AppState) : List TickInput → List ℚ
  | [] => []
  | inp :: rest =>
      (updateDisplay st inp).total_power
        :: runTotals (updateDisplay st inp).state rest

/-- The cumulative energy after each tick of a run, in order. -/
def runEnergies (st : AppState) : List TickInput → List ℚ
  | [] => []
  | inp :: rest =>
      (updateDisplay st inp).state.energy_consumption
        :: runEnergies (updateDisplay st inp).state rest

/-- The number of notification calls issued by each tick of a run. -/
def runNotifyCounts (st : AppState) : List TickInput → List Nat
  | [] => []
  | inp :: rest =>
      (updateDisplay st inp).notify_count
        :: runNotifyCounts (updateDisplay st inp).state rest

/-! Helper lemmas relating `updateDisplay` to `updatePowerConsumption` and
exposing the fields each tick writes. -/

theorem uPC_specs (st : AppState) (inp : TickInput) :
    (updatePowerConsumption st inp).state.hardware_specs = st.hardware_specs := rfl

theorem uPC_last_update (st : AppState) (inp : TickInput) :
    (updatePowerConsumption st inp).state.last_update = inp.now := rfl

theorem uPC_energy (st : AppState) (inp : TickInput) :
    (updatePowerConsumption st inp).state.energy_consumption
      = st.energy_consumption
        + (updatePowerConsumption st inp).total_power
          * ((inp.now - st.last_update) / 3600) := rfl

theorem uPC_history (st : AppState) (inp : TickInput) :
    (updatePowerConsumption st inp).state.power_history
      = if (st.power_history ++ [(updatePowerConsumption st inp).total_power]).length
            > max_history_points
        then (st.power_history ++ [(updatePowerConsumption st inp).total_power]).tail
        else st.power_history ++ [(updatePowerConsumption st inp).total_power] := rfl

theorem uPC_notify (st : AppState) (inp : TickInput) :
    (updatePowerConsumption st inp).notify_count
      = checkPowerThreshold (updatePowerConsumption st inp).total_power := rfl

theorem uPC_total_on_battery (st : AppState) (inp : TickInput) (b : BatteryInfo)
    (hb : st.hardware_specs.battery = some b) (hp : b.power_plugged = false) :
    (updatePowerConsumption st inp).total_power = b.power_consumption := by
  simp only [updatePowerConsumption, hb, hp]
  rfl

theorem uPC_total_sum_none (st : AppState) (inp : TickInput)
    (hb : st.hardware_specs.battery = none) :
    (updatePowerConsumption st inp).total_power
      = (updatePowerConsumption st inp).components.powerList.sum := by
  simp only [updatePowerConsumption, hb]

theorem uPC_total_sum_plugged (st : AppState) (inp : TickInput) (b : BatteryInfo)
    (hb : st.hardware_specs.battery = some b) (hp : b.power_plugged = true) :
    (updatePowerConsumption st inp).total_power
      = (updatePowerConsumption st inp).components.powerList.sum := by
  simp only [updatePowerConsumption, hb, hp]
  rfl

theorem uD_total (st : AppState) (inp : TickInput) :
    (updateDisplay st inp).total_power
      = (updatePowerConsumption st inp).total_power := by
  simp only [updateDisplay]
  split <;> rfl

theorem uD_history (st : AppState) (inp : TickInput) :
    (updateDisplay st inp).state.power_history
      = (updatePowerConsumption st inp).state.power_history := by
  simp only [updateDisplay]
  split <;> rfl

theorem uD_energy (st : AppState) (inp : TickInput) :
    (updateDisplay st inp).state.energy_consumption
      = (updatePowerConsumption st inp).state.energy_consumption := by
  simp only [updateDisplay]
  split <;> rfl

theorem uD_last_update (st : AppState) (inp : TickInput) :
    (updateDisplay st inp).state.last_update
      = (updatePowerConsumption st inp).state.last_update := by
  simp only [updateDisplay]
  split <;> rfl

theorem uD_notify (st : AppState) (inp : TickInput) :
    (updateDisplay st inp).notify_count
      = (updatePowerConsumption st inp).notify_count := by
  simp only [updateDisplay]
  split <;> rfl

theorem uD_powerList (st : AppState) (inp : TickInput) :
    (updateDisplay st inp).components.powerList
      = (updatePowerConsumption st inp).components.powerList := by
  simp only [updateDisplay]
  split <;> rfl

theorem uD_specs_cases (st : AppState) (inp : TickInput) :
    (updateDisplay st inp).state.hardware_specs
      = if (updatePowerConsumption st inp).components.gpu.usage = 0
        then { st.hardware_specs with
               gpu := { st.hardware_specs.gpu with load := inp.gpuReads 0 } }
        else st.hardware_specs := by
  simp only [updateDisplay]
  split <;> rfl

theorem uD_specs_battery (st : AppState) (inp : TickInput) :
    (updateDisplay st inp).state.hardware_specs.battery
      = st.hardware_specs.battery := by
  rw [uD_specs_cases]
  split <;> rfl

theorem suffix_append_same {α : Type} {l₁ l₂ : List α} (h : l₁ <:+ l₂)
    (l₃ : List α) : l₁ ++ l₃ <:+ l₂ ++ l₃ := by
  obtain ⟨p, hp⟩ := h
  exact ⟨p, by rw [← List.append_assoc, hp]⟩

theorem runTicks_history_aux (inps : List TickInput) :
    ∀ st : AppState, st.power_history.length ≤ max_history_points →
      (runTicks st inps).power_history.length
          = min max_history_points (st.power_history.length + inps.length)
        ∧ (runTicks st inps).power_history <:+ st.power_history ++ runTotals st inps := by
  induction inps with
  | nil =>
      intro st h
      refine ⟨?_, ?_⟩
      · simp only [runTicks, List.length_nil, Nat.add_zero]
        omega
      · simp [runTicks, runTotals]
  | cons inp rest ih =>
      intro st h
      have hstep : (updateDisplay st inp).state.power_history
          = if (st.power_history ++ [(updateDisplay st inp).total_power]).length
                > max_history_points
            then (st.power_history ++ [(updateDisplay st inp).total_power]).tail
            else st.power_history ++ [(updateDisplay st inp).total_power] := by
        rw [uD_history, uD_total, uPC_history]
      have hlen1 : (st.power_history ++ [(updateDisplay st inp).total_power]).length
          = st.power_history.length + 1 := by
        simp
      have hlen' : (updateDisplay st inp).state.power_history.length
          = min max_history_points (st.power_history.length + 1) := by
        rw [hstep]
        split
        · rw [List.length_tail, hlen1]
          unfold max_history_points at *
          omega
        · rw [hlen1]
          unfold max_history_points at *
          omega
      have hsfx : (updateDisplay st inp).state.power_history
          <:+ st.power_history ++ [(updateDisplay st inp).total_power] := by
        rw [hstep]
        split
        · exact (st.power_history ++ [(updateDisplay st inp).total_power]).tail_suffix
        · exact List.suffix_refl _
      have h' : (updateDisplay st inp).state.power_history.length ≤ max_history_points := by
        rw [hlen']
        omega
      obtain ⟨ihlen, ihsfx⟩ := ih (updateDisplay st inp).state h'
      refine ⟨?_, ?_⟩
      · rw [show runTicks st (inp :: rest) = runTicks (updateDisplay st inp).state rest from rfl]
        rw [ihlen, hlen']
        simp only [List.length_cons, max_history_points, Nat.min_def]
        unfold max_history_points at h
        split_ifs <;> omega
      · rw [show runTicks st (inp :: rest) = runTicks (updateDisplay st inp).state rest from rfl]
        rw [show runTotals st (inp :: rest)
            = (updateDisplay st inp).total_power
                :: runTotals (updateDisplay st inp).state rest from rfl]
        refine ihsfx.trans ?_
        have h2 := suffix_append_same hsfx (runTotals (updateDisplay st inp).state rest)
        rw [List.append_assoc] at h2
        exact h2

theorem uD_energy_formula (st : AppState) (inp : TickInput) :
    (updateDisplay st inp).state.energy_consumption
      = st.energy_consumption
        + (updateDisplay st inp).total_power * ((inp.now - st.last_update) / 3600) := by
  rw [uD_energy, uD_total, uPC_energy]

theorem runEnergies_chain_aux (inps : List TickInput) :
    ∀ st : AppState, (∀ x ∈ runTotals st inps, 0 ≤ x) →
      List.Chain' (· ≤ ·) (st.last_update :: inps.map TickInput.now) →
      List.Chain' (· ≤ ·) (st.energy_consumption :: runEnergies st inps) := by
  induction inps with
  | nil =>
      intro st _ _
      simp [runEnergies]
  | cons inp rest ih =>
      intro st hT hC
      rw [show runEnergies st (inp :: rest)
          = (updateDisplay st inp).state.energy_consumption
              :: runEnergies (updateDisplay st inp).state rest from rfl]
      rw [List.map_cons, List.chain'_cons] at hC
      obtain ⟨hnow, hC'⟩ := hC
      have hT0 : 0 ≤ (updateDisplay st inp).total_power := by
        apply hT
        rw [show runTotals st (inp :: rest)
            = (updateDisplay st inp).total_power
                :: runTotals (updateDisplay st inp).state rest from rfl]
        exact List.mem_cons_self _ _
      rw [List.chain'_cons]
      constructor
      · rw [uD_energy_formula]
        have : 0 ≤ (updateDisplay st inp).total_power
            * ((inp.now - st.last_update) / 3600) := by
          apply mul_nonneg hT0
          apply div_nonneg _ (by norm_num)
          linarith
        linarith
      · have hlast : (updateDisplay st inp).state.last_update = inp.now := by
          rw [uD_last_update, uPC_last_update]
        apply ih
        · intro x hx
          apply hT
          rw [show runTotals st (inp :: rest)
              = (updateDisplay st inp).total_power
                  :: runTotals (updateDisplay st inp).state rest from rfl]
          exact List.mem_cons_of_mem _ hx
        · rw [hlast]
          exact hC'

theorem runNotifyCounts_eq (inps : List TickInput) :
    ∀ st : AppState, runNotifyCounts st inps
      = (runTotals st inps).map (fun t => if t > 200 then 1 else 0) := by
  induction inps with
  | nil => intro st; simp [runNotifyCounts, runTotals]
  | cons inp rest ih =>
      intro st
      rw [show runNotifyCounts st (inp :: rest)
          = (updateDisplay st inp).notify_count
              :: runNotifyCounts (updateDisplay st inp).state rest from rfl]
      rw [show runTotals st (inp :: rest)
          = (updateDisplay st inp).total_power
              :: runTotals (updateDisplay st inp).state rest from rfl]
      rw [List.map_cons, ih]
      have : (updateDisplay st inp).notify_count
          = checkPowerThreshold (updateDisplay st inp).total_power := by
        rw [uD_notify, uPC_notify, uD_total]
      rw [this]
      rfl

theorem runTicks_battery (inps : List TickInput) :
    ∀ st : AppState, (runTicks st inps).hardware_specs.battery
      = st.hardware_specs.battery := by
  induction inps with
  | nil => intro st; rfl
  | cons inp rest ih =>
      intro st
      rw [show runTicks st (inp :: rest) = runTicks (updateDisplay st inp).state rest from rfl]
      rw [ih, uD_specs_battery]

theorem uD_total_on_battery (st : AppState) (inp : TickInput) (b : BatteryInfo)
    (hb : st.hardware_specs.battery = some b) (hp : b.power_plugged = false) :
    (updateDisplay st inp).total_power = b.power_consumption := by
  rw [uD_total]
  exact uPC_total_on_battery st inp b hb hp

theorem runTotals_on_battery (inps : List TickInput) :
    ∀ (st : AppState) (b : BatteryInfo),
      st.hardware_specs.battery = some b → b.power_plugged = false →
      ∀ x ∈ runTotals st inps, x = b.power_consumption := by
  induction inps with
  | nil => intro st b _ _ x hx; simp [runTotals] at hx
  | cons inp rest ih =>
      intro st b hb hp x hx
      rw [show runTotals st (inp :: rest)
          = (updateDisplay st inp).total_power
              :: runTotals (updateDisplay st inp).state rest from rfl] at hx
      rcases List.mem_cons.mp hx with h | h
      · rw [h]
        exact uD_total_on_battery st inp b hb hp
      · exact ih (updateDisplay st inp).state b
          (by rw [uD_specs_battery]; exact hb) hp x h

theorem diskFold_eq (disks : List DiskInfo) : ∀ p u : ℚ,
    disks.foldl
      (fun pu d =>
        (pu.1 + (if d.dtype = "SSD" then 2 + 1 * (d.used_gb / d.size_gb)
                 else 5 + 3 * (d.used_gb / d.size_gb)),
         pu.2 + d.used_gb / d.size_gb)) (p, u)
    = (p + (disks.map (fun d => if d.dtype = "SSD" then 2 + 1 * (d.used_gb / d.size_gb)
                                else 5 + 3 * (d.used_gb / d.size_gb))).sum,
       u + (disks.map (fun d => d.used_gb / d.size_gb)).sum) := by
  induction disks with
  | nil => intro p u; simp
  | cons d rest ih =>
      intro p u
      simp only [List.foldl_cons, List.map_cons, List.sum_cons, ih, Prod.mk.injEq]
      constructor <;> ring

theorem detectDisksInfo_skips (parts : List DiskPartition) :
    detectDisksInfo parts
      = detectDisksInfo (parts.filter (fun p => p.usage.isSome)) := by
  induction parts with
  | nil => rfl
  | cons p rest ih =>
      cases hu : p.usage with
      | some tu =>
          simp only [detectDisksInfo, hu, List.filter_cons, Option.isSome_some, ih]
      | none =>
          simp only [detectDisksInfo, hu, List.filter_cons, Option.isSome_none, ih]
          rfl

/-! Concrete fixtures used by the witnesses and counterexamples below. -/

def exCpu8 : CpuInfo := ⟨"Intel Core i7", 8, 16, 65, 200⟩

def exCpu4 : CpuInfo := ⟨"Intel Core i7", 4, 8, 65, 200⟩

def exGpuInt : GpuInfo := ⟨"Integrated GPU", 0, 0, 0, 15⟩

def exGpuDiscrete : GpuInfo := ⟨"NVIDIA GeForce RTX 3070", 1/2, 0, 0, 220⟩

def exSpecs : HardwareSpecs :=
  { cpu := exCpu8
    gpu := exGpuInt
    ram := 16
    disks := [⟨"C:", "SSD", 500, 250⟩]
    display := 20
    motherboard := 30
    fans := 10
    peripherals := 15
    battery := none }

def exSpecs4 : HardwareSpecs := { exSpecs with cpu := exCpu4 }

def exState : AppState :=
  { hardware_specs := exSpecs
    start_time := 0
    last_update := 0
    energy_consumption := 0
    run_time := 0
    power_history := [] }

def exStateLoaded : AppState :=
  { exState with hardware_specs := { exSpecs with gpu := exGpuDiscrete } }

/-- GPU-load reading stream whose first attempt reads 0 and whose later
attempts read 1/2. -/
def exReadsA : Nat → ℚ := fun i => if i = 0 then 0 else 1/2

/-- GPU-load reading stream that always reads 1/2. -/
def exReadsB : Nat → ℚ := fun _ => 1/2

def exInp : TickInput :=
  { now := 1
    realCpu := some 10
    realGpu := none
    realGpu2 := none
    cpuPercentNow := 0
    cpuPercentInterval := 0
    ramPercent := 0
    gpuReads := exReadsA }

def exInp2 : TickInput := { exInp with now := 2 }

def exInpB : TickInput := { exInp with gpuReads := exReadsB }

def exBatSpecs : HardwareSpecs :=
  detectHardware exCpu8 exGpuInt (16 * 1024 ^ 3) [] (some ⟨60, false⟩)

def exBatState : AppState := { exState with hardware_specs := exBatSpecs }

/-! Claim theorems. -/

/-- C1: when no real CPU sensor wattage is available, the estimated CPU
power for usage fraction u ∈ [0, 1] equals
(base_tdp + (max_tdp - base_tdp) * u) * min 1 (cores / 8); the witness
checks the two spec instances ({65, 200, 8 cores}, u = 0.5 ↦ 132.5 W and
{65, 200, 4 cores}, u = 1 ↦ 100 W). -/
theorem C1_cpu_power_estimate (specs : HardwareSpecs) (u pNow : ℚ)
    (h0 : 0 ≤ u) (h1 : u ≤ 1) :
    (calculateCpuPower specs none pNow (u * 100)).1
      = (specs.cpu.base_tdp + (specs.cpu.max_tdp - specs.cpu.base_tdp) * u)
        * min 1 ((specs.cpu.cores : ℚ) / 8) := by
  simp only [calculateCpuPower]
  norm_num

/-- Witness for C1 at the spec's two instances. -/
theorem C1_cpu_power_estimate_witness :
    ((0 : ℚ) ≤ 1/2 ∧ (1/2 : ℚ) ≤ 1
      ∧ (calculateCpuPower exSpecs none 0 ((1/2) * 100)).1 = 265/2)
    ∧ (calculateCpuPower exSpecs4 none 0 (1 * 100)).1 = 100 := by
  refine ⟨⟨by norm_num, by norm_num, ?_⟩, ?_⟩
  · rw [C1_cpu_power_estimate exSpecs (1/2) 0 (by norm_num) (by norm_num)]
    norm_num [exSpecs, exCpu8, min_def]
  · rw [C1_cpu_power_estimate exSpecs4 1 0 (by norm_num) (by norm_num)]
    norm_num [exSpecs4, exSpecs, exCpu4, min_def]

/-- C2: starting from the empty history, after every sequence of ticks the
power-history length is at most 60 and equals min(60, ticks elapsed), and
the buffer is a suffix of the list of published totals — it holds exactly
the most recent totals in FIFO order, the oldest (index 0) having been
evicted when capacity was exceeded. -/
theorem C2_history_bounded_fifo (st : AppState) (inps : List TickInput)
    (h : st.power_history = []) :
    (runTicks st inps).power_history.length ≤ 60
    ∧ (runTicks st inps).power_history.length = min 60 inps.length
    ∧ (runTicks st inps).power_history <:+ runTotals st inps := by
  have h0 : st.power_history.length ≤ max_history_points := by
    rw [h]
    simp [max_history_points]
  obtain ⟨hlen, hsfx⟩ := runTicks_history_aux inps st h0
  rw [h] at hlen hsfx
  simp only [List.length_nil, Nat.zero_add, List.nil_append] at hlen hsfx
  rw [max_history_points] at hlen
  exact ⟨by omega, hlen, hsfx⟩

/-- Witness for C2: a one-tick run from the start state. -/
theorem C2_history_bounded_fifo_witness :
    (runTicks exState [exInp]).power_history.length ≤ 60
    ∧ (runTicks exState [exInp]).power_history.length = min 60 [exInp].length
    ∧ (runTicks exState [exInp]).power_history <:+ runTotals exState [exInp] :=
  C2_history_bounded_fifo exState [exInp] rfl

/-- C3: whenever every tick's total power is non-negative (and the clock
readings are in order), the cumulative energy is non-decreasing across the
run; each tick adds total_power * (elapsed_seconds / 3600), elapsed being
the time since the previous tick. -/
theorem C3_energy_monotone (st : AppState) (inps : List TickInput)
    (hT : ∀ x ∈ runTotals st inps, 0 ≤ x)
    (hC : List.Chain' (· ≤ ·) (st.last_update :: inps.map TickInput.now)) :
    List.Chain' (· ≤ ·) (st.energy_consumption :: runEnergies st inps)
    ∧ ∀ (s : AppState) (i : TickInput),
        (updateDisplay s i).state.energy_consumption
          = s.energy_consumption
            + (updateDisplay s i).total_power * ((i.now - s.last_update) / 3600) :=
  ⟨runEnergies_chain_aux inps st hT hC, fun s i => uD_energy_formula s i⟩

theorem exBatState_battery :
    exBatState.hardware_specs.battery = some ⟨60, false, 30⟩ := by
  show getBatteryInfo (some ⟨60, false⟩) = some ⟨60, false, 30⟩
  simp only [getBatteryInfo, estimateBatteryPower, Bool.not_false, if_true,
    Option.some.injEq, BatteryInfo.mk.injEq]
  norm_num

/-- Witness for C3: a concrete two-tick run with non-negative totals. -/
theorem C3_energy_monotone_witness :
    List.Chain' (· ≤ ·)
      (exBatState.energy_consumption :: runEnergies exBatState [exInp, exInp2]) :=
  (C3_energy_monotone exBatState [exInp, exInp2]
    (fun x hx => by
      rw [runTotals_on_battery [exInp, exInp2] exBatState ⟨60, false, 30⟩
        exBatState_battery rfl x hx]
      norm_num)
    (by
      simp only [List.map_cons, List.map_nil, List.chain'_cons, List.chain'_singleton,
        and_true]
      show (exBatState.last_update ≤ exInp.now) ∧ (exInp.now ≤ exInp2.now)
      refine ⟨?_, ?_⟩ <;> norm_num [exBatState, exState, exInp, exInp2])).1

/-- C4: when the profile (as built by hardware detection) has a battery
that is not plugged in, the published total power is (percent / 100) * 50,
replacing the component sum; with no battery, or a plugged-in battery, the
total is the sum of the component power values. -/
theorem C4_battery_override (st : AppState) (inp : TickInput) :
    (∀ (cpu : CpuInfo) (gpu : GpuInfo) (ramBytes : ℚ)
       (parts : List DiskPartition) (p : ℚ),
       st.hardware_specs = detectHardware cpu gpu ramBytes parts (some ⟨p, false⟩) →
       (updateDisplay st inp).total_power = (p / 100) * 50)
    ∧ (st.hardware_specs.battery = none →
       (updateDisplay st inp).total_power
         = (updateDisplay st inp).components.powerList.sum)
    ∧ (∀ b : BatteryInfo, st.hardware_specs.battery = some b →
       b.power_plugged = true →
       (updateDisplay st inp).total_power
         = (updateDisplay st inp).components.powerList.sum) := by
  refine ⟨?_, ?_, ?_⟩
  · intro cpu gpu ramBytes parts p hsp
    have hb : st.hardware_specs.battery = some ⟨p, false, (p / 100) * 50⟩ := by
      rw [hsp]
      rfl
    exact uD_total_on_battery st inp ⟨p, false, (p / 100) * 50⟩ hb rfl
  · intro hb
    rw [uD_total, uD_powerList]
    exact uPC_total_sum_none st inp hb
  · intro b hb hp
    rw [uD_total, uD_powerList]
    exact uPC_total_sum_plugged st inp b hb hp

/-- Witness for C4: a profile with a battery at 60 percent, not plugged,
publishes a 30 W total. -/
theorem C4_battery_override_witness :
    (updateDisplay exBatState exInp).total_power = 30 :=
  ((C4_battery_override exBatState exInp).1 exCpu8 exGpuInt (16 * 1024 ^ 3)
    [] 60 rfl).trans (by norm_num)

/-- C5: each tick issues exactly one notification call when and only when
that tick's total power exceeds 200 W — across any run the per-tick
notification counts are exactly the indicator of total > 200, so every
consecutive tick above the threshold re-notifies and no tick at or below
200 notifies. -/
theorem C5_threshold_notify (st : AppState) (inps : List TickInput) :
    runNotifyCounts st inps
      = (runTotals st inps).map (fun t => if t > 200 then 1 else 0) :=
  runNotifyCounts_eq inps st

/-- C6: GPU power is the real sensor/vendor wattage when available, with
the last known load fraction as the usage percent; otherwise a discrete GPU
draws tdp * load and an integrated GPU draws 10 + 5 * load (the code's
criterion for integrated being the fallback name "Integrated GPU"). -/
theorem C6_gpu_power (specs : HardwareSpecs) :
    (∀ w : ℚ, calculateGpuPower specs (some w) = (w, specs.gpu.load * 100))
    ∧ calculateGpuPower specs none
        = if specs.gpu.isIntegrated
          then (10 + 5 * specs.gpu.load, specs.gpu.load * 100)
          else (specs.gpu.tdp * specs.gpu.load, specs.gpu.load * 100) := by
  refine ⟨fun w => rfl, ?_⟩
  simp only [calculateGpuPower, GpuInfo.isIntegrated]
  by_cases h : specs.gpu.name = "Integrated GPU"
  · simp [h]
  · simp [h]

/-! Helper lemmas for the retry wrapper. -/

theorem retry_succ_pos (reads : Nat → ℚ) (i k : Nat) (h : reads i > 0) :
    getGpuLoadWithRetry reads i (k + 1) = reads i := by
  rw [getGpuLoadWithRetry, if_pos h]

theorem retry_succ_nonpos (reads : Nat → ℚ) (i k : Nat) (h : ¬ reads i > 0) :
    getGpuLoadWithRetry reads i (k + 1) = getGpuLoadWithRetry reads (i + 1) k := by
  rw [getGpuLoadWithRetry, if_neg h]

theorem retry_exhaust (reads : Nat → ℚ) :
    ∀ (k i : Nat), (∀ j, j < k → ¬ reads (i + j) > 0) →
      getGpuLoadWithRetry reads i k = 0 := by
  intro k
  induction k with
  | zero => intro i _; rfl
  | succ k ih =>
      intro i h
      rw [retry_succ_nonpos reads i k (by simpa using h 0 (Nat.succ_pos k))]
      apply ih
      intro j hj
      have := h (j + 1) (by omega)
      rwa [← Nat.add_assoc, Nat.add_right_comm] at this

/-- The GPU usage computed by `update_power_consumption` on the fixture
state: the integrated fallback GPU with stored load 0 reports usage 0. -/
theorem exState_gpu_usage (inp : TickInput) (h : inp.realGpu = none) :
    (updatePowerConsumption exState inp).components.gpu.usage = 0 := by
  show (calculateGpuPower exState.hardware_specs inp.realGpu).2 = 0
  rw [h]
  show (calculateGpuPower exSpecs none).2 = 0
  simp only [calculateGpuPower]
  rw [if_neg (by simp [exSpecs, exGpuInt])]
  show exSpecs.gpu.load * 100 = 0
  norm_num [exSpecs, exGpuInt]

/-- C7 counterexample: on a tick whose first `_get_gpu_load_win()` reading
is 0 but whose second reading would be 1/2, the GPU load the program
actually stores (0, from a single direct call) differs from what the retry
wrapper would return (1/2) — so the wrapper is not what the program uses to
acquire the GPU load. -/
theorem C7_retry_counterexample :
    ¬ ((updateDisplay exState exInp).state.hardware_specs.gpu.load
        = getGpuLoadWithRetry exReadsA 0 3) := by
  have hspecs := uD_specs_cases exState exInp
  rw [if_pos (exState_gpu_usage exInp rfl)] at hspecs
  have hload : (updateDisplay exState exInp).state.hardware_specs.gpu.load = 0 := by
    rw [hspecs]
    rfl
  have hretry : getGpuLoadWithRetry exReadsA 0 3 = 1/2 := by
    rw [show (3 : Nat) = 2 + 1 from rfl,
      retry_succ_nonpos exReadsA 0 2 (by norm_num [exReadsA]),
      show (2 : Nat) = 1 + 1 from rfl,
      retry_succ_pos exReadsA 1 1 (by norm_num [exReadsA])]
    norm_num [exReadsA]
  rw [hload, hretry]
  norm_num

/-- C7 (amended): the retry wrapper `_get_gpu_load_with_retry` does retry
with bounded attempts until a positive reading or exhaustion, finally
falling back to 0 — but it is dead code: whenever the program acquires the
GPU load (here, `update_display`'s refresh), it stores the result of a
single direct `_get_gpu_load_win()` call instead of invoking the wrapper. -/
theorem C7_retry_amended (reads : Nat → ℚ) (i k : Nat) :
    (getGpuLoadWithRetry reads i 0 = 0)
    ∧ (reads i > 0 → getGpuLoadWithRetry reads i (k + 1) = reads i)
    ∧ (¬ reads i > 0 →
        getGpuLoadWithRetry reads i (k + 1) = getGpuLoadWithRetry reads (i + 1) k)
    ∧ ((∀ j, j < k → ¬ reads (i + j) > 0) → getGpuLoadWithRetry reads i k = 0)
    ∧ (∀ (st : AppState) (inp : TickInput),
        (updateDisplay st inp).state.hardware_specs.gpu.load
          = if (updatePowerConsumption st inp).components.gpu.usage = 0
            then inp.gpuReads 0
            else st.hardware_specs.gpu.load) := by
  refine ⟨rfl, retry_succ_pos reads i k, retry_succ_nonpos reads i k,
    retry_exhaust reads k i, ?_⟩
  intro st inp
  rw [uD_specs_cases]
  split <;> rfl

/-- Witness for C7 (amended), at the concrete reading stream that reads 0
then 1/2: one retry attempt suffices after a failed first attempt. -/
theorem C7_retry_amended_witness :
    getGpuLoadWithRetry exReadsA 1 2 = exReadsA 1
    ∧ getGpuLoadWithRetry exReadsA 0 0 = 0 :=
  ⟨(C7_retry_amended exReadsA 1 1).2.1 (by norm_num [exReadsA]),
   (C7_retry_amended exReadsA 0 0).1⟩

/-- C8: total disk power is the sum over disks of 2 + 1 * used_fraction
for SSDs and 5 + 3 * used_fraction for HDDs (an SSD at 250/500 GB
contributes 2.5 W), disk usage percent is the average used-fraction (0 with
no disks), and partitions whose usage query fails are excluded from
detection rather than zero-filled. -/
theorem C8_disk_power (disks : List DiskInfo) (parts : List DiskPartition) :
    ((calculateDiskPower disks).1
       = (disks.map (fun d => if d.dtype = "SSD" then 2 + 1 * (d.used_gb / d.size_gb)
                              else 5 + 3 * (d.used_gb / d.size_gb))).sum)
    ∧ ((calculateDiskPower disks).2
       = if disks.isEmpty then 0
         else ((disks.map (fun d => d.used_gb / d.size_gb)).sum
                / (disks.length : ℚ)) * 100)
    ∧ (calculateDiskPower []).2 = 0
    ∧ detectDisksInfo parts = detectDisksInfo (parts.filter (fun p => p.usage.isSome))
    ∧ (calculateDiskPower [⟨"C:", "SSD", 500, 250⟩]).1 = 5/2 := by
  refine ⟨?_, ?_, ?_, detectDisksInfo_skips parts, ?_⟩
  · simp only [calculateDiskPower]
    rw [diskFold_eq]
    simp
  · by_cases hd : disks.isEmpty
    · simp [calculateDiskPower, hd]
    · simp only [calculateDiskPower]
      rw [diskFold_eq]
      simp [hd]
  · simp [calculateDiskPower]
  · simp only [calculateDiskPower]
    rw [diskFold_eq]
    norm_num

/-- The GPU usage computed by `update_power_consumption` on the fixture
state with a discrete GPU at load 1/2: usage 50, non-zero. -/
theorem exStateLoaded_gpu_usage :
    (updatePowerConsumption exStateLoaded exInp).components.gpu.usage = 50 := by
  show (calculateGpuPower exStateLoaded.hardware_specs exInp.realGpu).2 = 50
  show (calculateGpuPower { exSpecs with gpu := exGpuDiscrete } none).2 = 50
  simp only [calculateGpuPower]
  rw [if_pos (by simp [exGpuDiscrete])]
  show exGpuDiscrete.load * 100 = 50
  norm_num [exGpuDiscrete]

/-- C9 counterexample: on a tick whose computed GPU usage is 0 and whose
fresh GPU-load reading is 1/2, `update_display` mutates the hardware
profile (it rewrites `hardware_specs['gpu']['load']`), so the profile is
not immutable after construction. -/
theorem C9_immutable_counterexample :
    ¬ ((updateDisplay exState exInpB).state.hardware_specs
        = exState.hardware_specs) := by
  intro heq
  have hspecs := uD_specs_cases exState exInpB
  rw [if_pos (exState_gpu_usage exInpB rfl)] at hspecs
  have hload : (updateDisplay exState exInpB).state.hardware_specs.gpu.load = 1/2 := by
    rw [hspecs]
    show exInpB.gpuReads 0 = 1/2
    rfl
  have hload0 : exState.hardware_specs.gpu.load = 0 := rfl
  rw [heq, hload0] at hload
  norm_num at hload

/-- C9 (amended): every field of the hardware profile except the GPU load
is preserved by a tick, `update_power_consumption` itself never mutates the
profile, and the profile is fully preserved whenever the tick's computed
GPU usage is non-zero; the sole exception is `update_display` overwriting
`gpu.load` with a fresh reading when the computed GPU usage is 0. -/
theorem C9_profile_immutable_except_gpu_load (st : AppState) (inp : TickInput) :
    (updatePowerConsumption st inp).state.hardware_specs = st.hardware_specs
    ∧ ((updateDisplay st inp).state.hardware_specs.cpu = st.hardware_specs.cpu
       ∧ (updateDisplay st inp).state.hardware_specs.ram = st.hardware_specs.ram
       ∧ (updateDisplay st inp).state.hardware_specs.disks = st.hardware_specs.disks
       ∧ (updateDisplay st inp).state.hardware_specs.battery
           = st.hardware_specs.battery
       ∧ (updateDisplay st inp).state.hardware_specs.display
           = st.hardware_specs.display
       ∧ (updateDisplay st inp).state.hardware_specs.motherboard
           = st.hardware_specs.motherboard
       ∧ (updateDisplay st inp).state.hardware_specs.fans = st.hardware_specs.fans
       ∧ (updateDisplay st inp).state.hardware_specs.peripherals
           = st.hardware_specs.peripherals
       ∧ (updateDisplay st inp).state.hardware_specs.gpu.name
           = st.hardware_specs.gpu.name
       ∧ (updateDisplay st inp).state.hardware_specs.gpu.memory_used
           = st.hardware_specs.gpu.memory_used
       ∧ (updateDisplay st inp).state.hardware_specs.gpu.memory_total
           = st.hardware_specs.gpu.memory_total
       ∧ (updateDisplay st inp).state.hardware_specs.gpu.tdp
           = st.hardware_specs.gpu.tdp)
    ∧ ((updatePowerConsumption st inp).components.gpu.usage ≠ 0 →
        (updateDisplay st inp).state.hardware_specs = st.hardware_specs) := by
  refine ⟨rfl, ?_, ?_⟩
  · rw [uD_specs_cases]
    split
    · exact ⟨rfl, rfl, rfl, rfl, rfl, rfl, rfl, rfl, rfl, rfl, rfl, rfl⟩
    · exact ⟨rfl, rfl, rfl, rfl, rfl, rfl, rfl, rfl, rfl, rfl, rfl, rfl⟩
  · intro h
    rw [uD_specs_cases, if_neg h]

/-- Witness for C9 (amended): a tick with non-zero GPU usage leaves the
profile untouched. -/
theorem C9_profile_immutable_witness :
    (updateDisplay exStateLoaded exInp).state.hardware_specs
      = exStateLoaded.hardware_specs :=
  (C9_profile_immutable_except_gpu_load exStateLoaded exInp).2.2
    (by rw [exStateLoaded_gpu_usage]; norm_num)

/-- C10: the battery field of the profile is fixed at construction
(`_get_battery_info` is called only from `_detect_hardware`) and no tick
ever changes it; consequently, on a profile whose battery is present and
not plugged in, every tick of a run publishes the same battery-derived
total, namely the `power_consumption` computed at startup, which for a
battery read as (percent p, not plugged) is (p / 100) * 50. -/
theorem C10_battery_read_once (st : AppState) (inps : List TickInput) :
    (runTicks st inps).hardware_specs.battery = st.hardware_specs.battery
    ∧ (∀ b : BatteryInfo, st.hardware_specs.battery = some b →
        b.power_plugged = false →
        ∀ x ∈ runTotals st inps, x = b.power_consumption)
    ∧ (∀ rb : RawBattery, rb.power_plugged = false →
        getBatteryInfo (some rb)
          = some ⟨rb.percent, false, (rb.percent / 100) * 50⟩) := by
  refine ⟨runTicks_battery inps st,
    fun b hb hp => runTotals_on_battery inps st b hb hp, ?_⟩
  intro rb hp
  simp [getBatteryInfo, estimateBatteryPower, hp]

/-- Witness for C10: a two-tick run on the battery fixture keeps the
battery field and publishes the constant 30 W total on both ticks. -/
theorem C10_battery_read_once_witness :
    (runTicks exBatState [exInp, exInp2]).hardware_specs.battery
        = exBatState.hardware_specs.battery
    ∧ ∀ x ∈ runTotals exBatState [exInp, exInp2], x = 30 :=
  ⟨(C10_battery_read_once exBatState [exInp, exInp2]).1,
   fun x hx => (C10_battery_read_once exBatState [exInp, exInp2]).2.1
     ⟨60, false, 30⟩ exBatState_battery rfl x hx⟩

end MyPowerWatch
